import Mathlib

/-!
Verification of the build glue of the astarte-device-sdk-cpp repository:
the clang-tidy Conan build helper (scripts/build_for_tidy_conan.py) and the
end-to-end Conan recipe (end_to_end/conanfile.py).

The helper script is modelled as a function over an abstract `World`
(which paths are directories, what each subprocess invocation does) that
returns the observable outcome of one process run: how the process
terminated, the lines it printed to stderr, and the commands it handed to
subprocess.run, in order.
-/

/-- Outcome of handing one command to subprocess.run(check=True): the command
exits 0 (`ok`), exits non-zero (`calledProcessError`, the exception that
run_command catches), or cannot be started at all (`fileNotFound`, e.g. the
conan executable missing from PATH, raising FileNotFoundError). -/
inductive RunOutcome where
  | ok
  | calledProcessError
  | fileNotFound
deriving DecidableEq, Repr

/-- The ambient environment the script consults: os.path.isdir, and the
behaviour of each external command when handed to subprocess.run. -/
structure World where
  isdir : String → Bool
  run : List String → RunOutcome

/-- How the process run ends: sys.exit with a status code, or an exception
propagating uncaught out of the script. -/
inductive Termination where
  | exited (code : Nat)
  | uncaughtException (exc : String)
deriving DecidableEq, Repr

/-- Observable result of one invocation: termination, the lines printed to
stderr, and the commands handed to subprocess.run in order. -/
structure ExecResult where
  term : Termination
  stderr : List String
  started : List (List String)
deriving DecidableEq, Repr

/-- error_exit (build_for_tidy_conan.py:20-28): the stderr line it prints
before sys.exit(1). -/
def error_exit_line (message : String) : String := "Error: " ++ message

/-- The stderr line the interpreter prints for an exception that propagates
uncaught out of the script (a traceback, not an error_exit message). -/
def traceback_line (exc : String) : String :=
  "Traceback (most recent call last): " ++ exc

/-- What one run_command call does, seen from its caller: return normally,
call error_exit with the given message, or let an exception escape. -/
inductive CmdResult where
  | ok
  | errorExit (msg : String)
  | uncaught (exc : String)
deriving DecidableEq, Repr

/-- run_command (build_for_tidy_conan.py:31-47): runs the command via
subprocess.run(check=True) and catches only subprocess.CalledProcessError,
turning it into error_exit with the custom message when one is given, else a
default message showing the command; any other exception (FileNotFoundError
when the executable is absent) propagates uncaught. -/
def run_command (w : World) (command : List String) (error_message : Option String) :
    CmdResult :=
  match w.run command with
  | .ok => .ok
  | .calledProcessError =>
    match error_message with
    | some m => .errorExit m
    | none => .errorExit ("Command failed: " ++ String.intercalate " " command)
  | .fileNotFound => .uncaught "FileNotFoundError"

/-- The profile-detection command (build_for_tidy_conan.py:71-74). -/
def conan_profile_detect_cmd : List String :=
  ["conan", "profile", "detect", "--exist-ok"]

/-- conan_lib_build_cmd (build_for_tidy_conan.py:79-92): the build command
list, a fixed template parameterized only by lib_src_dir and transport. -/
def conan_lib_build_cmd (lib_src_dir transport : String) : List String :=
  ["conan",
   "build",
   lib_src_dir,
   "--output-folder=build",
   "--build=missing",
   "--options=&:transport=" ++ transport,
   "--settings=build_type=Debug",
   "--settings=compiler.cppstd=20",
   "--settings:build=compiler.cppstd=20",
   "--conf=tools.cmake.cmaketoolchain:extra_variables=\x7b\x27CMAKE_EXPORT_COMPILE_COMMANDS\x27: \x27ON\x27\x7d"]

/-- The error_exit message of the transport validation check
(build_for_tidy_conan.py:67). -/
def transport_error_message : String :=
  "Transport should one of: \x27grpc\x27 or \x27mqtt\x27."

/-- build_for_tidy_with_conan (build_for_tidy_conan.py:50-95): validates the
two arguments in order (falsy/empty path, non-existent directory, transport
outside grpc/mqtt), each failure printing to stderr and exiting 1; then runs
profile detection and the library build strictly in sequence through
run_command, each non-zero exit printing its fixed message and exiting 1. -/
def build_for_tidy_with_conan (w : World) (lib_src_dir transport : String) : ExecResult :=
  if lib_src_dir = "" then
    ⟨.exited 1, [error_exit_line "Library source directory not provided."], []⟩
  else if w.isdir lib_src_dir = false then
    ⟨.exited 1,
     [error_exit_line ("Library source directory does not exist: " ++ lib_src_dir)], []⟩
  else if transport ∉ (["grpc", "mqtt"] : List String) then
    ⟨.exited 1, [error_exit_line transport_error_message], []⟩
  else
    match run_command w conan_profile_detect_cmd (some "Conan profile detection failed.") with
    | .errorExit m => ⟨.exited 1, [error_exit_line m], [conan_profile_detect_cmd]⟩
    | .uncaught e => ⟨.uncaughtException e, [traceback_line e], [conan_profile_detect_cmd]⟩
    | .ok =>
      match run_command w (conan_lib_build_cmd lib_src_dir transport)
          (some "Failed to build library.") with
      | .errorExit m =>
        ⟨.exited 1, [error_exit_line m],
         [conan_profile_detect_cmd, conan_lib_build_cmd lib_src_dir transport]⟩
      | .uncaught e =>
        ⟨.uncaughtException e, [traceback_line e],
         [conan_profile_detect_cmd, conan_lib_build_cmd lib_src_dir transport]⟩
      | .ok =>
        ⟨.exited 0, [],
         [conan_profile_detect_cmd, conan_lib_build_cmd lib_src_dir transport]⟩

/-- The guard of the function's own transport validation check
(build_for_tidy_conan.py:66): it fires exactly when the two earlier checks
pass and the transport is outside the fixed set. -/
def transport_check_fires (w : World) (lib_src_dir transport : String) : Bool :=
  !(lib_src_dir == "") && w.isdir lib_src_dir &&
    !(transport == "grpc" || transport == "mqtt")

/-- The argparse error line for an invalid transport choice. Python argparse
prints usage plus this line to stderr and calls sys.exit(2). -/
def argparse_invalid_choice_line (transport : String) : String :=
  "build_for_tidy_conan.py: error: argument transport: invalid choice: \x27" ++
    transport ++ "\x27 (choose from \x27grpc\x27, \x27mqtt\x27)"

/-- The __main__ entry point (build_for_tidy_conan.py:97-105): argparse
declares positional lib_src_dir and transport with choices grpc/mqtt; a
transport value outside the choices is rejected by argparse itself, which
prints usage and an error to stderr and exits with status 2 before
build_for_tidy_with_conan runs. -/
def cli_main (w : World) (lib_src_dir transport : String) : ExecResult :=
  if transport ∈ (["grpc", "mqtt"] : List String) then
    build_for_tidy_with_conan w lib_src_dir transport
  else
    ⟨.exited 2,
     ["usage: build_for_tidy_conan.py [-h] lib_src_dir \x7bgrpc,mqtt\x7d",
      argparse_invalid_choice_line transport], []⟩

/-- All three argument checks of build_for_tidy_with_conan pass. -/
def valid_args (w : World) (lib_src_dir transport : String) : Prop :=
  lib_src_dir ≠ "" ∧ w.isdir lib_src_dir = true ∧
    transport ∈ (["grpc", "mqtt"] : List String)

instance (w : World) (l t : String) : Decidable (valid_args w l t) := by
  unfold valid_args; infer_instance

namespace Pkg

/-- One entry of the recipe's option set: its key and its default value
(conanfile.py:11-12, options together with default_options). -/
structure OptionEntry where
  name : String
  value : Bool
deriving DecidableEq, Repr

/-- The recipe's declared options with their default_options values:
shared defaults to False, fPIC defaults to True (conanfile.py:11-12). -/
def initial_options : List OptionEntry :=
  [⟨"shared", false⟩, ⟨"fPIC", true⟩]

/-- config_options (conanfile.py:14-16): when the os setting is Windows,
`del self.options.fPIC` removes the fPIC key from the option set; on any
other os the option set is left untouched. -/
def config_options (os : String) (opts : List OptionEntry) : List OptionEntry :=
  if os = "Windows" then opts.filter (fun o => o.name ≠ "fPIC") else opts

/-- The four pinned dependencies added by requirements, in source order
(conanfile.py:18-22). -/
def pinned_requirements : List String :=
  ["cpr/1.12.0", "nlohmann_json/3.12.0", "tomlplusplus/3.4.0",
   "astarte-device-sdk/0.7.0"]

/-- requirements (conanfile.py:18-22): four self.requires calls, each
appending one pinned dependency to the requirement list. -/
def requirements (reqs : List String) : List String :=
  (((reqs ++ ["cpr/1.12.0"]) ++ ["nlohmann_json/3.12.0"]) ++
    ["tomlplusplus/3.4.0"]) ++ ["astarte-device-sdk/0.7.0"]

end Pkg

/-- A world where every path is a directory and every command exits 0. -/
def wOk : World := ⟨fun _ => true, fun _ => .ok⟩

/-- A world where every path is a directory and every command exits
non-zero. -/
def wFail : World := ⟨fun _ => true, fun _ => .calledProcessError⟩

/-- A world where every path is a directory and no command executable can be
found. -/
def wMissingExe : World := ⟨fun _ => true, fun _ => .fileNotFound⟩

/-! ## Branch characterizations of build_for_tidy_with_conan -/

/-- Empty path: first check fires, nothing started. -/
lemma build_eq_of_empty (w : World) (l t : String) (h : l = "") :
    build_for_tidy_with_conan w l t =
      ⟨.exited 1, [error_exit_line "Library source directory not provided."], []⟩ := by
  simp [build_for_tidy_with_conan, h]

/-- Non-existent directory: second check fires, nothing started. -/
lemma build_eq_of_not_dir (w : World) (l t : String) (h1 : l ≠ "")
    (h2 : w.isdir l = false) :
    build_for_tidy_with_conan w l t =
      ⟨.exited 1,
       [error_exit_line ("Library source directory does not exist: " ++ l)], []⟩ := by
  simp [build_for_tidy_with_conan, h1, h2]

/-- Transport outside the fixed set: third check fires, nothing started. -/
lemma build_eq_of_bad_transport (w : World) (l t : String) (h1 : l ≠ "")
    (h2 : w.isdir l = true) (h3 : t ∉ (["grpc", "mqtt"] : List String)) :
    build_for_tidy_with_conan w l t =
      ⟨.exited 1, [error_exit_line transport_error_message], []⟩ := by
  simp only [List.mem_cons, List.mem_singleton, List.not_mem_nil, or_false] at h3
  simp [build_for_tidy_with_conan, h1, h2, h3]

/-- Validation passed, profile detection exits non-zero: its fixed message,
exit 1, only the detect command started. -/
lemma build_eq_of_detect_cpe (w : World) (l t : String) (hv : valid_args w l t)
    (hd : w.run conan_profile_detect_cmd = .calledProcessError) :
    build_for_tidy_with_conan w l t =
      ⟨.exited 1, [error_exit_line "Conan profile detection failed."],
       [conan_profile_detect_cmd]⟩ := by
  obtain ⟨h1, h2, h3⟩ := hv
  simp only [List.mem_cons, List.mem_singleton, List.not_mem_nil, or_false] at h3
  simp [build_for_tidy_with_conan, run_command, h1, h2, h3, hd]

/-- Validation passed, the detect executable cannot be started: the exception
propagates, a traceback (not an error_exit line) reaches stderr. -/
lemma build_eq_of_detect_fnf (w : World) (l t : String) (hv : valid_args w l t)
    (hd : w.run conan_profile_detect_cmd = .fileNotFound) :
    build_for_tidy_with_conan w l t =
      ⟨.uncaughtException "FileNotFoundError", [traceback_line "FileNotFoundError"],
       [conan_profile_detect_cmd]⟩ := by
  obtain ⟨h1, h2, h3⟩ := hv
  simp only [List.mem_cons, List.mem_singleton, List.not_mem_nil, or_false] at h3
  simp [build_for_tidy_with_conan, run_command, h1, h2, h3, hd]

/-- Validation passed, detect ok, build exits non-zero: its fixed message,
exit 1, both commands started in order. -/
lemma build_eq_of_build_cpe (w : World) (l t : String) (hv : valid_args w l t)
    (hd : w.run conan_profile_detect_cmd = .ok)
    (hb : w.run (conan_lib_build_cmd l t) = .calledProcessError) :
    build_for_tidy_with_conan w l t =
      ⟨.exited 1, [error_exit_line "Failed to build library."],
       [conan_profile_detect_cmd, conan_lib_build_cmd l t]⟩ := by
  obtain ⟨h1, h2, h3⟩ := hv
  simp only [List.mem_cons, List.mem_singleton, List.not_mem_nil, or_false] at h3
  simp [build_for_tidy_with_conan, run_command, h1, h2, h3, hd, hb]

/-- Validation passed, detect ok, the build executable cannot be started. -/
lemma build_eq_of_build_fnf (w : World) (l t : String) (hv : valid_args w l t)
    (hd : w.run conan_profile_detect_cmd = .ok)
    (hb : w.run (conan_lib_build_cmd l t) = .fileNotFound) :
    build_for_tidy_with_conan w l t =
      ⟨.uncaughtException "FileNotFoundError", [traceback_line "FileNotFoundError"],
       [conan_profile_detect_cmd, conan_lib_build_cmd l t]⟩ := by
  obtain ⟨h1, h2, h3⟩ := hv
  simp only [List.mem_cons, List.mem_singleton, List.not_mem_nil, or_false] at h3
  simp [build_for_tidy_with_conan, run_command, h1, h2, h3, hd, hb]

/-- Validation passed and both steps exit 0: exit 0, both commands started in
order. -/
lemma build_eq_of_all_ok (w : World) (l t : String) (hv : valid_args w l t)
    (hd : w.run conan_profile_detect_cmd = .ok)
    (hb : w.run (conan_lib_build_cmd l t) = .ok) :
    build_for_tidy_with_conan w l t =
      ⟨.exited 0, [], [conan_profile_detect_cmd, conan_lib_build_cmd l t]⟩ := by
  obtain ⟨h1, h2, h3⟩ := hv
  simp only [List.mem_cons, List.mem_singleton, List.not_mem_nil, or_false] at h3
  simp [build_for_tidy_with_conan, run_command, h1, h2, h3, hd, hb]

/-- Failed validation means one of the three checks fired. -/
lemma not_valid_cases (w : World) (l t : String) (hv : ¬ valid_args w l t) :
    l = "" ∨ (l ≠ "" ∧ w.isdir l = false) ∨
      (l ≠ "" ∧ w.isdir l = true ∧ t ∉ (["grpc", "mqtt"] : List String)) := by
  by_cases h1 : l = ""
  · exact Or.inl h1
  · by_cases h2 : w.isdir l = true
    · refine Or.inr (Or.inr ⟨h1, h2, fun h3 => hv ⟨h1, h2, h3⟩⟩)
    · exact Or.inr (Or.inl ⟨h1, Bool.eq_false_iff.mpr h2⟩)

/-- Every run of the function lands in one of the seven branches. -/
lemma build_cases (w : World) (l t : String) :
    (¬ valid_args w l t ∧ (build_for_tidy_with_conan w l t).started = [] ∧
      (build_for_tidy_with_conan w l t).term = .exited 1) ∨
    (valid_args w l t ∧
      ((build_for_tidy_with_conan w l t).started = [conan_profile_detect_cmd] ∨
       (build_for_tidy_with_conan w l t).started =
         [conan_profile_detect_cmd, conan_lib_build_cmd l t])) := by
  by_cases hv : valid_args w l t
  · refine Or.inr ⟨hv, ?_⟩
    rcases hd : w.run conan_profile_detect_cmd with _ | _ | _
    · rcases hb : w.run (conan_lib_build_cmd l t) with _ | _ | _
      · rw [build_eq_of_all_ok w l t hv hd hb]; right; rfl
      · rw [build_eq_of_build_cpe w l t hv hd hb]; right; rfl
      · rw [build_eq_of_build_fnf w l t hv hd hb]; right; rfl
    · rw [build_eq_of_detect_cpe w l t hv hd]; left; rfl
    · rw [build_eq_of_detect_fnf w l t hv hd]; left; rfl
  · refine Or.inl ⟨hv, ?_⟩
    rcases not_valid_cases w l t hv with h1 | ⟨h1, h2⟩ | ⟨h1, h2, h3⟩
    · rw [build_eq_of_empty w l t h1]; exact ⟨rfl, rfl⟩
    · rw [build_eq_of_not_dir w l t h1 h2]; exact ⟨rfl, rfl⟩
    · rw [build_eq_of_bad_transport w l t h1 h2 h3]; exact ⟨rfl, rfl⟩

/-! ## Claims -/

/-- C1: argument validation in build_for_tidy_with_conan is fail-fast in the
fixed order empty-path, then non-existent directory, then transport outside
the grpc/mqtt set: the first violated check prints its message to stderr and
exits with status 1, and no subprocess is started unless all three checks
pass. -/
theorem c1_validation_fail_fast (w : World) (l t : String) :
    (l = "" →
      build_for_tidy_with_conan w l t =
        ⟨.exited 1, [error_exit_line "Library source directory not provided."], []⟩) ∧
    (l ≠ "" → w.isdir l = false →
      build_for_tidy_with_conan w l t =
        ⟨.exited 1,
         [error_exit_line ("Library source directory does not exist: " ++ l)], []⟩) ∧
    (l ≠ "" → w.isdir l = true → t ∉ (["grpc", "mqtt"] : List String) →
      build_for_tidy_with_conan w l t =
        ⟨.exited 1, [error_exit_line transport_error_message], []⟩) ∧
    ((build_for_tidy_with_conan w l t).started ≠ [] → valid_args w l t) := by
  refine ⟨build_eq_of_empty w l t, build_eq_of_not_dir w l t,
    build_eq_of_bad_transport w l t, fun hs => ?_⟩
  rcases build_cases w l t with ⟨_, h, _⟩ | ⟨hv, _⟩
  · exact absurd h hs
  · exact hv

/-- C1 witness: at the empty path, the first check fires with its message and
no subprocess is started. -/
theorem c1_validation_fail_fast_witness :
    build_for_tidy_with_conan wOk "" "mqtt" =
      ⟨.exited 1, [error_exit_line "Library source directory not provided."], []⟩ :=
  (c1_validation_fail_fast wOk "" "mqtt").1 rfl

/-- C2: for every transport in the grpc/mqtt set, the constructed build
command is the fixed template parameterized only by lib_src_dir and
transport: it contains the literal option text transport=grpc or
transport=mqtt matching the input, requests compilation-database export
(CMAKE_EXPORT_COMPILE_COMMANDS ON), the Debug build type and cppstd 20. -/
theorem c2_build_cmd_template (l t : String)
    (h : t ∈ (["grpc", "mqtt"] : List String)) :
    conan_lib_build_cmd l t =
      ["conan", "build", l, "--output-folder=build", "--build=missing",
       "--options=&:transport=" ++ t, "--settings=build_type=Debug",
       "--settings=compiler.cppstd=20", "--settings:build=compiler.cppstd=20",
       "--conf=tools.cmake.cmaketoolchain:extra_variables=\x7b\x27CMAKE_EXPORT_COMPILE_COMMANDS\x27: \x27ON\x27\x7d"] ∧
    ("--options=&:transport=" ++ t) ∈ conan_lib_build_cmd l t ∧
    (t = "grpc" → "--options=&:transport=grpc" ∈ conan_lib_build_cmd l t) ∧
    (t = "mqtt" → "--options=&:transport=mqtt" ∈ conan_lib_build_cmd l t) ∧
    "--conf=tools.cmake.cmaketoolchain:extra_variables=\x7b\x27CMAKE_EXPORT_COMPILE_COMMANDS\x27: \x27ON\x27\x7d"
      ∈ conan_lib_build_cmd l t ∧
    "--settings=build_type=Debug" ∈ conan_lib_build_cmd l t ∧
    "--settings=compiler.cppstd=20" ∈ conan_lib_build_cmd l t := by
  refine ⟨rfl, by simp [conan_lib_build_cmd], fun ht => ?_, fun ht => ?_,
    by simp [conan_lib_build_cmd], by simp [conan_lib_build_cmd],
    by simp [conan_lib_build_cmd]⟩
  · subst ht; simp [conan_lib_build_cmd]
  · subst ht; simp [conan_lib_build_cmd]

/-- C2 witness: the concrete build command for transport mqtt. -/
theorem c2_build_cmd_template_witness :
    "--options=&:transport=mqtt" ∈ conan_lib_build_cmd "/lib" "mqtt" :=
  (c2_build_cmd_template "/lib" "mqtt" (by decide)).2.2.2.1 rfl

/-- C3: the helper's exit status is 0 exactly when all three validation
checks pass and both subprocess steps exit 0; any validation failure, a
non-zero exit of the detect step, or a non-zero exit of the build step, each
yields exit status 1. -/
theorem c3_exit_codes (w : World) (l t : String) :
    ((build_for_tidy_with_conan w l t).term = .exited 0 ↔
      (valid_args w l t ∧ w.run conan_profile_detect_cmd = .ok ∧
        w.run (conan_lib_build_cmd l t) = .ok)) ∧
    (¬ valid_args w l t →
      (build_for_tidy_with_conan w l t).term = .exited 1) ∧
    (valid_args w l t → w.run conan_profile_detect_cmd = .calledProcessError →
      (build_for_tidy_with_conan w l t).term = .exited 1) ∧
    (valid_args w l t → w.run conan_profile_detect_cmd = .ok →
      w.run (conan_lib_build_cmd l t) = .calledProcessError →
      (build_for_tidy_with_conan w l t).term = .exited 1) := by
  have hinv : ∀ hv : ¬ valid_args w l t,
      (build_for_tidy_with_conan w l t).term = .exited 1 := by
    intro hv
    rcases not_valid_cases w l t hv with h1 | ⟨h1, h2⟩ | ⟨h1, h2, h3⟩
    · rw [build_eq_of_empty w l t h1]
    · rw [build_eq_of_not_dir w l t h1 h2]
    · rw [build_eq_of_bad_transport w l t h1 h2 h3]
  refine ⟨⟨fun h0 => ?_, fun ⟨hv, hd, hb⟩ => ?_⟩, hinv, fun hv hd => ?_, fun hv hd hb => ?_⟩
  · by_cases hv : valid_args w l t
    · rcases hd : w.run conan_profile_detect_cmd with _ | _ | _
      · rcases hb : w.run (conan_lib_build_cmd l t) with _ | _ | _
        · exact ⟨hv, rfl, rfl⟩
        · rw [build_eq_of_build_cpe w l t hv hd hb] at h0; simp at h0
        · rw [build_eq_of_build_fnf w l t hv hd hb] at h0; simp at h0
      · rw [build_eq_of_detect_cpe w l t hv hd] at h0; simp at h0
      · rw [build_eq_of_detect_fnf w l t hv hd] at h0; simp at h0
    · rw [hinv hv] at h0; simp at h0
  · rw [build_eq_of_all_ok w l t hv hd hb]
  · rw [build_eq_of_detect_cpe w l t hv hd]
  · rw [build_eq_of_build_cpe w l t hv hd hb]

/-- C3 witness: with every path a directory, transport mqtt and both
subprocess steps exiting 0, the helper exits 0. -/
theorem c3_exit_codes_witness :
    (build_for_tidy_with_conan wOk "/lib" "mqtt").term = .exited 0 :=
  (c3_exit_codes wOk "/lib" "mqtt").1.mpr ⟨⟨by decide, rfl, by decide⟩, rfl, rfl⟩

/-- C4: with a valid directory and a valid transport, a non-zero exit of the
profile-detection step prints the fixed message "Conan profile detection
failed." and exits 1, and the build command is never started; moreover the
subprocess invocations of any run are the detect command, then the build
command, each at most once and in that order — strictly sequential, no
retry. -/
theorem c4_detect_failure_stops (w : World) (l t : String) :
    (valid_args w l t → w.run conan_profile_detect_cmd = .calledProcessError →
      build_for_tidy_with_conan w l t =
        ⟨.exited 1, [error_exit_line "Conan profile detection failed."],
         [conan_profile_detect_cmd]⟩) ∧
    ((build_for_tidy_with_conan w l t).started = [] ∨
     (build_for_tidy_with_conan w l t).started = [conan_profile_detect_cmd] ∨
     (build_for_tidy_with_conan w l t).started =
       [conan_profile_detect_cmd, conan_lib_build_cmd l t]) := by
  refine ⟨build_eq_of_detect_cpe w l t, ?_⟩
  rcases build_cases w l t with ⟨_, h, _⟩ | ⟨_, h | h⟩
  · exact Or.inl h
  · exact Or.inr (Or.inl h)
  · exact Or.inr (Or.inr h)

/-- C4 witness: with every command exiting non-zero, profile detection fails
with the fixed message and the build command is never started. -/
theorem c4_detect_failure_stops_witness :
    build_for_tidy_with_conan wFail "/lib" "grpc" =
      ⟨.exited 1, [error_exit_line "Conan profile detection failed."],
       [conan_profile_detect_cmd]⟩ :=
  (c4_detect_failure_stops wFail "/lib" "grpc").1 ⟨by decide, rfl, by decide⟩ rfl

/-- C5: after config_options runs on the recipe's declared options, a
Windows os setting leaves no fPIC key in the option set, and any non-Windows
os setting leaves the option set untouched, containing fPIC with default
True and shared with default False. -/
theorem c5_config_options (os : String) :
    (os = "Windows" →
      Pkg.config_options os Pkg.initial_options = [⟨"shared", false⟩] ∧
      ∀ o ∈ Pkg.config_options os Pkg.initial_options, o.name ≠ "fPIC") ∧
    (os ≠ "Windows" →
      Pkg.config_options os Pkg.initial_options =
        [⟨"shared", false⟩, ⟨"fPIC", true⟩] ∧
      (⟨"fPIC", true⟩ : Pkg.OptionEntry) ∈ Pkg.config_options os Pkg.initial_options ∧
      (⟨"shared", false⟩ : Pkg.OptionEntry) ∈ Pkg.config_options os Pkg.initial_options) := by
  constructor
  · intro h
    subst h
    refine ⟨by decide, ?_⟩
    intro o ho
    rw [Pkg.config_options, if_pos rfl, List.mem_filter] at ho
    simpa using ho.2
  · intro h
    rw [Pkg.config_options, if_neg h]
    exact ⟨rfl, by decide, by decide⟩

/-- C5 witness: on Windows the fPIC key is gone; on Linux both options
remain with their defaults. -/
theorem c5_config_options_witness :
    Pkg.config_options "Windows" Pkg.initial_options = [⟨"shared", false⟩] ∧
    Pkg.config_options "Linux" Pkg.initial_options =
      [⟨"shared", false⟩, ⟨"fPIC", true⟩] :=
  ⟨((c5_config_options "Windows").1 rfl).1, ((c5_config_options "Linux").2 (by decide)).1⟩

/-- C6: for every invocation of build_for_tidy_with_conan with a transport
outside the grpc/mqtt set, the helper exits with status 1 and prints an
error line, and starts no subprocess, regardless of whether lib_src_dir is a
valid existing directory. -/
theorem c6_bad_transport_exits_one (w : World) (l t : String)
    (h : t ∉ (["grpc", "mqtt"] : List String)) :
    (build_for_tidy_with_conan w l t).term = .exited 1 ∧
    (build_for_tidy_with_conan w l t).stderr ≠ [] ∧
    (build_for_tidy_with_conan w l t).started = [] := by
  by_cases h1 : l = ""
  · rw [build_eq_of_empty w l t h1]; exact ⟨rfl, by simp, rfl⟩
  · by_cases h2 : w.isdir l = true
    · rw [build_eq_of_bad_transport w l t h1 h2 h]; exact ⟨rfl, by simp, rfl⟩
    · rw [build_eq_of_not_dir w l t h1 (Bool.eq_false_iff.mpr h2)]
      exact ⟨rfl, by simp, rfl⟩

/-- C6 witness: transport "tcp" with a valid directory exits 1 with an error
and starts nothing. -/
theorem c6_bad_transport_exits_one_witness :
    (build_for_tidy_with_conan wOk "/lib" "tcp").term = .exited 1 ∧
    (build_for_tidy_with_conan wOk "/lib" "tcp").stderr ≠ [] ∧
    (build_for_tidy_with_conan wOk "/lib" "tcp").started = [] :=
  c6_bad_transport_exits_one wOk "/lib" "tcp" (by decide)

/-- C7: the recipe declares exactly the four pinned dependencies cpr 1.12.0,
nlohmann_json 3.12.0, tomlplusplus 3.4.0 and astarte-device-sdk 0.7.0, and
requirements only appends this fixed list — it adds nothing else and is a
pure function of its input, identical across invocations. -/
theorem c7_requirements_pinned :
    Pkg.requirements [] = Pkg.pinned_requirements ∧
    Pkg.pinned_requirements =
      ["cpr/1.12.0", "nlohmann_json/3.12.0", "tomlplusplus/3.4.0",
       "astarte-device-sdk/0.7.0"] ∧
    Pkg.pinned_requirements.length = 4 ∧
    (∀ reqs : List String, Pkg.requirements reqs = reqs ++ Pkg.pinned_requirements) := by
  refine ⟨rfl, rfl, rfl, fun reqs => ?_⟩
  simp [Pkg.requirements, Pkg.pinned_requirements]

/-- C8: invoked through the command-line entry point with a transport outside
the grpc/mqtt choices, argparse rejects the value before
build_for_tidy_with_conan runs: the process exits with argparse's status 2
(not 1) and starts no subprocess; when the CLI does reach the function, the
transport is one of the choices, so the function's own transport check never
fires on any CLI path. -/
theorem c8_argparse_choices (w : World) (l t : String) :
    (t ∉ (["grpc", "mqtt"] : List String) →
      (cli_main w l t).term = .exited 2 ∧ (cli_main w l t).started = []) ∧
    (t ∈ (["grpc", "mqtt"] : List String) →
      cli_main w l t = build_for_tidy_with_conan w l t) ∧
    (transport_check_fires w l t = true →
      build_for_tidy_with_conan w l t =
        ⟨.exited 1, [error_exit_line transport_error_message], []⟩) ∧
    (t ∈ (["grpc", "mqtt"] : List String) →
      transport_check_fires w l t = false) := by
  refine ⟨fun h => ?_, fun h => ?_, fun hf => ?_, fun h => ?_⟩
  · rw [cli_main, if_neg h]
    exact ⟨rfl, rfl⟩
  · rw [cli_main, if_pos h]
  · simp [transport_check_fires] at hf
    exact build_eq_of_bad_transport w l t hf.1.1 hf.1.2 (by simp [hf.2.1, hf.2.2])
  · simp only [List.mem_cons, List.mem_singleton, List.not_mem_nil, or_false] at h
    rcases h with h | h <;> simp [transport_check_fires, h]

/-- C8 witness: transport "tcp" through the CLI exits with argparse's
status 2 and no subprocess is started. -/
theorem c8_argparse_choices_witness :
    (cli_main wOk "/lib" "tcp").term = .exited 2 ∧
    (cli_main wOk "/lib" "tcp").started = [] :=
  (c8_argparse_choices wOk "/lib" "tcp").1 (by decide)

/-- A traceback line is never an error_exit line: the two differ in their
first character. -/
lemma traceback_line_ne_error_exit_line (e msg : String) :
    traceback_line e ≠ error_exit_line msg := by
  intro h
  have h2 := congrArg (fun s => s.data.head?) h
  simp [traceback_line, error_exit_line, String.data_append] at h2

/-- C9: run_command catches only subprocess.CalledProcessError; when a
command cannot be started at all (FileNotFoundError, e.g. conan missing from
PATH), the exception propagates uncaught out of run_command for either
subprocess step, so the helper terminates by uncaught exception and no
stderr line is an error_exit line. -/
theorem c9_file_not_found_uncaught (w : World) (l t : String) :
    (∀ (cmd : List String) (msg : Option String), w.run cmd = .fileNotFound →
      run_command w cmd msg = .uncaught "FileNotFoundError") ∧
    (valid_args w l t → w.run conan_profile_detect_cmd = .fileNotFound →
      (build_for_tidy_with_conan w l t).term = .uncaughtException "FileNotFoundError" ∧
      ∀ m ∈ (build_for_tidy_with_conan w l t).stderr,
        ∀ msg : String, m ≠ error_exit_line msg) ∧
    (valid_args w l t → w.run conan_profile_detect_cmd = .ok →
      w.run (conan_lib_build_cmd l t) = .fileNotFound →
      (build_for_tidy_with_conan w l t).term = .uncaughtException "FileNotFoundError" ∧
      ∀ m ∈ (build_for_tidy_with_conan w l t).stderr,
        ∀ msg : String, m ≠ error_exit_line msg) := by
  refine ⟨fun cmd msg h => ?_, fun hv hd => ?_, fun hv hd hb => ?_⟩
  · simp [run_command, h]
  · rw [build_eq_of_detect_fnf w l t hv hd]
    refine ⟨rfl, ?_⟩
    intro m hm msg
    simp at hm
    subst hm
    exact traceback_line_ne_error_exit_line _ msg
  · rw [build_eq_of_build_fnf w l t hv hd hb]
    refine ⟨rfl, ?_⟩
    intro m hm msg
    simp at hm
    subst hm
    exact traceback_line_ne_error_exit_line _ msg

/-- C9 witness: with the conan executable missing, the helper terminates by
uncaught FileNotFoundError and prints no error_exit line. -/
theorem c9_file_not_found_uncaught_witness :
    (build_for_tidy_with_conan wMissingExe "/lib" "grpc").term =
      .uncaughtException "FileNotFoundError" :=
  ((c9_file_not_found_uncaught wMissingExe "/lib" "grpc").2.1
    ⟨by decide, rfl, by decide⟩ rfl).1

/-- C10: the build command list is a deterministic pure function of the two
arguments — equal lib_src_dir and transport give element-for-element equal
lists — and independent of the environment: in any world, every command the
helper starts is either the fixed detect command or the build command
determined solely by the arguments. -/
theorem c10_build_cmd_deterministic (w1 w2 : World) (l1 t1 l2 t2 : String)
    (hl : l1 = l2) (ht : t1 = t2) :
    conan_lib_build_cmd l1 t1 = conan_lib_build_cmd l2 t2 ∧
    (∀ c ∈ (build_for_tidy_with_conan w1 l1 t1).started,
      c = conan_profile_detect_cmd ∨ c = conan_lib_build_cmd l2 t2) ∧
    (∀ c ∈ (build_for_tidy_with_conan w2 l2 t2).started,
      c = conan_profile_detect_cmd ∨ c = conan_lib_build_cmd l2 t2) := by
  subst hl; subst ht
  have hmem : ∀ w : World, ∀ c ∈ (build_for_tidy_with_conan w l1 t1).started,
      c = conan_profile_detect_cmd ∨ c = conan_lib_build_cmd l1 t1 := by
    intro w c hc
    rcases build_cases w l1 t1 with ⟨_, h, _⟩ | ⟨_, h | h⟩ <;> rw [h] at hc
    · simp at hc
    · simp at hc; exact Or.inl hc
    · simp at hc; rcases hc with hc | hc
      · exact Or.inl hc
      · exact Or.inr hc
  exact ⟨rfl, hmem w1, hmem w2⟩

/-- C10 witness: two runs in different worlds with the same arguments
construct the same build command. -/
theorem c10_build_cmd_deterministic_witness :
    conan_lib_build_cmd "/lib" "mqtt" = conan_lib_build_cmd "/lib" "mqtt" :=
  (c10_build_cmd_deterministic wOk wFail "/lib" "mqtt" "/lib" "mqtt" rfl rfl).1
